import Mathlib

/-!
Shallow embedding of the apitally-rs request-metrics middleware
(`src/client.rs`, `src/layer.rs`) and proofs about it.

Modelling conventions:
* `Uuid` values are modelled as `Nat`; freshly generated UUIDs are passed in
  as explicit arguments (the oracle supplying the randomness).
* `HashMap<Uuid, RequestMeta>` (the request stash) is an association list;
  insert overwrites the previous binding for the key, as `HashMap::insert` does.
* Rust panics (`unwrap` on `None` / parse failure) are modelled as `none` of
  an `Option`-typed result: a `none` outcome means the Rust code panics.
* The `f32` fields of the request-log message only ever hold the exact
  constants `0.0` and `100.0`; they are modelled as `Rat`.
* `tokio::task::spawn` of an HTTP POST is modelled by recording the posted
  message in an `Emission` list returned by the operation; the discarded
  network outcome is not modelled.
-/

namespace Apitally

/-- `RequestLogConfig` from `src/client.rs`. -/
structure RequestLogConfig where
  enabled : Bool
  log_query_params : Option Bool
  log_request_headers : Option Bool
  log_request_body : Option Bool
  log_response_headers : Option Bool
  log_response_body : Option Bool
deriving DecidableEq, Repr

/-- `Default` instance of `RequestLogConfig` (Rust `#[derive(Default)]`):
`enabled = false`, all options `None`. -/
def RequestLogConfig.mkDefault : RequestLogConfig :=
  { enabled := false
    log_query_params := none
    log_request_headers := none
    log_request_body := none
    log_response_headers := none
    log_response_body := none }

/-- `RequestMeta` from `src/client.rs`. -/
structure RequestMeta where
  content_length : Nat
  matched_path : String
  method : String
  url : String
deriving DecidableEq, Repr

/-- `ResponseMeta` from `src/client.rs`; `status` is the `u16` value of the
HTTP status code. -/
structure ResponseMeta where
  size : Nat
  status : Nat
deriving DecidableEq, Repr

/-- `CapturedRequest` from `src/client.rs`. The three histogram fields are
`HashMap<String, usize>` in Rust, modelled as association lists. -/
structure CapturedRequest where
  consumer : Option String
  method : String
  path : String
  status_code : Nat
  request_count : Nat
  request_size_sum : Nat
  response_size_sum : Nat
  response_times : List (String × Nat)
  request_sizes : List (String × Nat)
  response_sizes : List (String × Nat)
deriving DecidableEq, Repr

/-- `RequestsBundleMessage` from `src/client.rs`. `ValidationError` and
`ServerError` are empty structs, modelled as `Unit`. -/
structure RequestsBundleMessage where
  time_offset : Nat
  instance_uuid : Nat
  message_uuid : Nat
  requests : List CapturedRequest
  validation_errors : List Unit
  server_errors : List Unit
  consumers : List String
deriving DecidableEq, Repr

/-- `StartUpMessage` from `ApitallyClient::send_startup_data`. -/
structure StartUpMessage where
  instance_uuid : Nat
  message_uuid : Nat
  paths : List String
  versions : List (String × String)
  client : String
deriving DecidableEq, Repr

/-- `RequestLogRequest` from `ApitallyClient::send_log_data`. -/
structure RequestLogRequest where
  timestamp : Rat
  method : String
  path : String
  url : String
  headers : List (String × String)
  size : Nat
  consumer : String
  body : String
deriving DecidableEq, Repr

/-- `RequestLogResponse` from `ApitallyClient::send_log_data`. -/
structure RequestLogResponse where
  status_code : Nat
  response_time : Rat
  headers : List (String × String)
  size : Nat
  body : String
deriving DecidableEq, Repr

/-- `RequestLogMessage` from `ApitallyClient::send_log_data`. -/
structure RequestLogMessage where
  uuid : Nat
  request : RequestLogRequest
  response : RequestLogResponse
deriving DecidableEq, Repr

/-- One fire-and-forget HTTP POST launched via `tokio::task::spawn`.
`url` is the full URL posted to; `log` additionally carries the fresh
random `uuid` query parameter. -/
inductive Emission where
  | startup (url : String) (msg : StartUpMessage)
  | sync (url : String) (msg : RequestsBundleMessage)
  | log (url : String) (uuidParam : Nat) (msg : RequestLogMessage)
deriving DecidableEq, Repr

/-- `true` exactly on request-log emissions (POSTs to `/log`). -/
def Emission.isLog : Emission → Bool
  | .log _ _ _ => true
  | _ => false

/-- The request stash: `HashMap<Uuid, RequestMeta>` as an association list. -/
abbrev Stash := List (Nat × RequestMeta)

/-- `HashMap::insert`: bind `k` to `v`, overwriting any previous binding. -/
def stashInsert (s : Stash) (k : Nat) (v : RequestMeta) : Stash :=
  (k, v) :: s.filter (fun p => p.1 ≠ k)

/-- `HashMap::get`: look up the binding of `k`, without modifying the map. -/
def stashGet (s : Stash) (k : Nat) : Option RequestMeta :=
  s.lookup k

/-- `ApitallyClient` from `src/client.rs`. The `Arc<Mutex<..>>` around the
stash is modelled by threading the stash state through the operations. -/
structure ApitallyClient where
  base_url : String
  instance_id : Nat
  request_log_config : RequestLogConfig
  request_stash : Stash
deriving DecidableEq, Repr

def URL_STARTUP_SUFFIX : String := "startup"
def URL_SYNC_SUFFIX : String := "sync"
def URL_LOG_SUFFIX : String := "log"

/-- `ApitallyClient::send_startup_data`: builds the startup message and
spawns a POST of it to `<base_url>/startup`; always returns `Ok(())`.
`message_id` is the fresh `Uuid::new_v4()`. -/
def send_startup_data (c : ApitallyClient) (message_id : Nat) :
    Except String Unit × List Emission :=
  let body : StartUpMessage :=
    { instance_uuid := c.instance_id
      message_uuid := message_id
      paths := []
      versions := []
      client := "rs:axum" }
  (Except.ok (), [Emission.startup (c.base_url ++ "/" ++ URL_STARTUP_SUFFIX) body])

/-- `ApitallyClient::new`: derives the base URL from `client_id` and
`environment`, takes a fresh instance id, defaults the log config and the
stash, and fires one startup emission whose result is discarded
(`let _unhandled = instance.send_startup_data()`).
`instance_id` and `startup_message_id` are the two fresh `Uuid::new_v4()`
values. Returns the client together with the emissions it launched. -/
def ApitallyClient.new (client_id environment : String)
    (instance_id startup_message_id : Nat) :
    ApitallyClient × List Emission :=
  let base_url := "https://hub.apitally.io/v2/" ++ client_id ++ "/" ++ environment
  let inst : ApitallyClient :=
    { base_url := base_url
      instance_id := instance_id
      request_log_config := RequestLogConfig.mkDefault
      request_stash := [] }
  let startup := send_startup_data inst startup_message_id
  (inst, startup.2)

/-- `ApitallyClient::stash_request_data`: inserts the record under the key
(result of the insert discarded) and returns `Ok(())`. Returns the updated
client since the stash is mutated through the mutex. -/
def stash_request_data (c : ApitallyClient) (request_key : Nat)
    (request_meta : RequestMeta) : Except String Unit × ApitallyClient :=
  (Except.ok (),
   { c with request_stash := stashInsert c.request_stash request_key request_meta })

/-- `ApitallyClient::send_log_data`: builds the request-log message with
constant timestamp `0.0`, response time `100.0`, empty header lists, empty
bodies and empty consumer, and spawns a POST of it to
`<base_url>/log?uuid=<fresh>`; always returns `Ok(())`.
`log_uuid` is the fresh message `Uuid::new_v4()`, `query_uuid` the fresh
one used as the query parameter. -/
def send_log_data (c : ApitallyClient) (request_meta : RequestMeta)
    (response_meta : ResponseMeta) (log_uuid query_uuid : Nat) :
    Except String Unit × List Emission :=
  let body : RequestLogMessage :=
    { uuid := log_uuid
      request :=
        { timestamp := 0
          method := request_meta.method
          path := request_meta.matched_path
          url := request_meta.url
          headers := []
          size := request_meta.content_length
          consumer := ""
          body := "" }
      response :=
        { status_code := response_meta.status
          response_time := 100
          headers := []
          size := response_meta.size
          body := "" } }
  (Except.ok (), [Emission.log (c.base_url ++ "/" ++ URL_LOG_SUFFIX) query_uuid body])

/-- `ApitallyClient::send_request_data`: locks the stash, looks up the
record for `request_key` (`.get(..).unwrap()` — `none` here models the
panic on a missing key), unconditionally calls `send_log_data` (its error
propagated by `?`), then builds the requests-bundle message tagged with
`message_uuid = request_key` and spawns a POST of it to `<base_url>/sync`.
Returns the result, the client (whose stash it may observe), and the
emissions launched, or `none` when the lookup panics. -/
def send_request_data (c : ApitallyClient) (request_key : Nat)
    (response_meta : ResponseMeta) (log_uuid query_uuid : Nat) :
    Option (Except String Unit × ApitallyClient × List Emission) :=
  match stashGet c.request_stash request_key with
  | none => none
  | some request_meta =>
    match send_log_data c request_meta response_meta log_uuid query_uuid with
    | (Except.error e, logEmissions) => some (Except.error e, c, logEmissions)
    | (Except.ok (), logEmissions) =>
      let body : RequestsBundleMessage :=
        { time_offset := 0
          instance_uuid := c.instance_id
          message_uuid := request_key
          requests :=
            [{ consumer := none
               method := request_meta.method
               path := request_meta.matched_path
               status_code := response_meta.status
               request_count := 1
               request_size_sum := request_meta.content_length
               response_size_sum := response_meta.size
               response_times := [("0", 1)]
               request_sizes := [("0", 1)]
               response_sizes := [("0", 1)] }]
          validation_errors := []
          server_errors := []
          consumers := [] }
      some (Except.ok (), c,
        logEmissions ++ [Emission.sync (c.base_url ++ "/" ++ URL_SYNC_SUFFIX) body])

/-! ## Middleware adapter (`src/layer.rs`)

`lib.rs` only declares `pub mod client;` and keeps a stale inline middleware
that constructs `client::RequestMeta` with a nonexistent `uri` field and calls
`send_request_data` with the wrong arity, so it cannot type-check against
`client.rs`; the middleware specified and embedded here is the one in
`src/layer.rs`. -/

/-- The part of an axum `Request` the middleware reads: the raw value of the
`content-length` header if present, the `MatchedPath` extension if the router
set one, the method, the URI path and the full URI string. -/
structure Request where
  content_length_header : Option String
  matched_path_ext : Option String
  method : String
  uri_path : String
  uri : String
deriving DecidableEq, Repr

/-- The part of an axum `Response` the middleware reads and the caller
observes: status code (`u16`), the exact body-size hint when known
(`size_hint().exact()`), and the headers and body it passes through. -/
structure Response where
  status : Nat
  body_size_hint : Option Nat
  headers : List (String × String)
  body : String
deriving DecidableEq, Repr

/-- Digit run of Rust `usize::from_str`: one or more ASCII digits, no other
characters. -/
def parseDigits : List Char → Option Nat
  | [] => none
  | cs =>
    cs.foldl
      (fun acc c =>
        match acc with
        | none => none
        | some n => if c.isDigit then some (n * 10 + (c.toNat - 48)) else none)
      (some 0)

/-- Rust `str::parse::<usize>()`: an optional leading `+` then one or more
ASCII digits; anything else is a parse error (`none`). -/
def parseUsize (s : String) : Option Nat :=
  match s.data with
  | '+' :: rest => parseDigits rest
  | cs => parseDigits cs

/-- Content-length extraction from `ApitallyMiddleware::call`:
`Some(v) => v.to_str().unwrap().parse().unwrap()`, `None => 0`.
A `none` result models the panic of `.parse().unwrap()` on an unparseable
header value. -/
def extract_content_length (header : Option String) : Option Nat :=
  match header with
  | some v => parseUsize v
  | none => some 0

/-- Route extraction from `ApitallyMiddleware::call`: the `MatchedPath`
pattern when the router exposed one, otherwise the literal request path. -/
def extract_path (req : Request) : String :=
  match req.matched_path_ext with
  | some matched_path => matched_path
  | none => req.uri_path

/-- Response metadata the middleware captures:
`status: response.status(), size: response.body().size_hint().exact().unwrap_or(0)`. -/
def ResponseMeta.ofResponse (r : Response) : ResponseMeta :=
  { status := r.status
    size := r.body_size_hint.getD 0 }

/-- `ApitallyMiddleware::call` from `src/layer.rs`: generate a correlation
key (`request_key`, the fresh `Uuid::new_v4()`), stash the extracted request
metadata (result discarded), run the wrapped handler `inner`, propagate its
error unchanged (`future.await?`), otherwise call `send_request_data` (result
discarded) and return the handler's response unchanged. A `none` result
models a panic (unparseable content-length, or stash-lookup miss inside
`send_request_data`). Returns the handler outcome, the final client state and
the emissions launched. -/
def ApitallyMiddleware.call {ε : Type} (client : ApitallyClient)
    (inner : Request → Except ε Response) (request : Request)
    (request_key log_uuid query_uuid : Nat) :
    Option (Except ε Response × ApitallyClient × List Emission) :=
  match extract_content_length request.content_length_header with
  | none => none
  | some content_length =>
    let meta : RequestMeta :=
      { content_length := content_length
        matched_path := extract_path request
        method := request.method
        url := request.uri }
    let stashed := stash_request_data client request_key meta
    let client1 := stashed.2
    match inner request with
    | Except.error e => some (Except.error e, client1, [])
    | Except.ok response =>
      match send_request_data client1 request_key (ResponseMeta.ofResponse response)
          log_uuid query_uuid with
      | none => none
      | some (_unhandled, client2, emissions) =>
        some (Except.ok response, client2, emissions)

/-! ## Helper definitions for stating properties -/

/-- Decidable equality for `Except`, to state properties of the
`Result`-typed operations. -/
instance {α β : Type} [DecidableEq α] [DecidableEq β] :
    DecidableEq (Except α β) := fun a b =>
  match a, b with
  | Except.ok x, Except.ok y =>
    if h : x = y then isTrue (by rw [h]) else isFalse (by simp [h])
  | Except.error x, Except.error y =>
    if h : x = y then isTrue (by rw [h]) else isFalse (by simp [h])
  | Except.ok _, Except.error _ => isFalse (by simp)
  | Except.error _, Except.ok _ => isFalse (by simp)

/-- The requests-bundle messages among a list of emissions (the POSTs to
`/sync`). -/
def syncMsgs : List Emission → List RequestsBundleMessage
  | [] => []
  | Emission.sync _ m :: rest => m :: syncMsgs rest
  | _ :: rest => syncMsgs rest

/-- The request-log messages among a list of emissions (the POSTs to
`/log`). -/
def logMsgs : List Emission → List RequestLogMessage
  | [] => []
  | Emission.log _ _ m :: rest => m :: logMsgs rest
  | _ :: rest => logMsgs rest

/-! ## Basic lemmas -/

theorem stashGet_stashInsert_self (s : Stash) (k : Nat) (v : RequestMeta) :
    stashGet (stashInsert s k v) k = some v := by
  simp [stashGet, stashInsert, List.lookup]

/-- Reduction of `send_request_data` when the key is stashed: the result is
`Ok(())`, the client is returned with its stash untouched, and the emissions
are the one log emission followed by the one sync emission. -/
theorem send_request_data_eq_of_stashed (c : ApitallyClient) (k : Nat)
    (rm : RequestMeta) (resp : ResponseMeta) (lu qu : Nat)
    (h : stashGet c.request_stash k = some rm) :
    send_request_data c k resp lu qu =
      some (Except.ok (), c,
        (send_log_data c rm resp lu qu).2 ++
          [Emission.sync (c.base_url ++ "/" ++ URL_SYNC_SUFFIX)
            { time_offset := 0
              instance_uuid := c.instance_id
              message_uuid := k
              requests :=
                [{ consumer := none
                   method := rm.method
                   path := rm.matched_path
                   status_code := resp.status
                   request_count := 1
                   request_size_sum := rm.content_length
                   response_size_sum := resp.size
                   response_times := [("0", 1)]
                   request_sizes := [("0", 1)]
                   response_sizes := [("0", 1)] }]
              validation_errors := []
              server_errors := []
              consumers := [] }]) := by
  simp [send_request_data, h, send_log_data]

/-- `send_request_data` panics exactly when the key is absent. -/
theorem send_request_data_isSome_iff (c : ApitallyClient) (k : Nat)
    (resp : ResponseMeta) (lu qu : Nat) :
    (send_request_data c k resp lu qu).isSome ↔
      (stashGet c.request_stash k).isSome := by
  cases h : stashGet c.request_stash k with
  | none => simp [send_request_data, h]
  | some rm => simp [send_request_data_eq_of_stashed c k rm resp lu qu h, h]

/-- When content-length extraction succeeds, the middleware returns exactly
the wrapped handler's outcome as its first component. -/
theorem call_fst_eq {ε : Type} (client : ApitallyClient)
    (inner : Request → Except ε Response) (request : Request)
    (rk lu qu cl : Nat)
    (hcl : extract_content_length request.content_length_header = some cl) :
    (ApitallyMiddleware.call client inner request rk lu qu).map
      (fun out => out.1) = some (inner request) := by
  cases hr : inner request with
  | error e => simp [ApitallyMiddleware.call, hcl, hr, stash_request_data]
  | ok response =>
    simp [ApitallyMiddleware.call, hcl, hr, stash_request_data, send_request_data,
      stashGet_stashInsert_self, send_log_data]

/-- When content-length extraction succeeds, the middleware does not panic. -/
theorem call_isSome_of_extract {ε : Type} (client : ApitallyClient)
    (inner : Request → Except ε Response) (request : Request)
    (rk lu qu cl : Nat)
    (hcl : extract_content_length request.content_length_header = some cl) :
    (ApitallyMiddleware.call client inner request rk lu qu).isSome := by
  have h := call_fst_eq client inner request rk lu qu cl hcl
  obtain ⟨out, hout, -⟩ := Option.map_eq_some'.mp h
  simp [hout]

/-! ## Concrete sample values (used by witnesses and counterexamples) -/

def metaW : RequestMeta :=
  { content_length := 0
    matched_path := "/items/:id"
    method := "GET"
    url := "/items/7" }

def respW : ResponseMeta := { size := 10, status := 200 }

def clientW : ApitallyClient :=
  { base_url := "https://hub.apitally.io/v2/abc/prod"
    instance_id := 9
    request_log_config := RequestLogConfig.mkDefault
    request_stash := [(1, metaW)] }

def requestW : Request :=
  { content_length_header := none
    matched_path_ext := some "/items/:id"
    method := "GET"
    uri_path := "/items/7"
    uri := "/items/7" }

def requestNoRouteW : Request :=
  { content_length_header := some "42"
    matched_path_ext := none
    method := "GET"
    uri_path := "/users/42"
    uri := "/users/42" }

def responseW : Response :=
  { status := 200
    body_size_hint := some 10
    headers := [("server", "axum")]
    body := "howdy" }

def innerW : Request → Except String Response := fun _ => Except.ok responseW

/-! ## Claims -/

/-- C1: content-length extraction at the spec's three probe points. The
absent-header and numeric cases behave as claimed (0 and 42), but an
unparseable value such as "abc" does not fall back to 0: the code runs
`.parse().unwrap()`, which panics (modelled by `none`) and crashes the
request-handling path, so the extraction is not total. -/
theorem extract_content_length_not_total :
    extract_content_length none = some 0 ∧
    extract_content_length (some "42") = some 42 ∧
    extract_content_length (some "abc") = none := by
  exact ⟨rfl, by decide, by decide⟩

/-- C2 counterexample: with the request-log configuration left at its
default (`enabled = false`), `send_request_data` still builds and sends a
request-log message — so "no log message is built or sent when logging is
disabled" is false. -/
theorem send_request_data_logs_despite_disabled :
    clientW.request_log_config.enabled = false ∧
    (send_request_data clientW 1 respW 5 6).map
      (fun out => out.2.2.countP Emission.isLog) = some 1 := by
  exact ⟨rfl, rfl⟩

/-- C2 amended: every terminating `send_request_data` call triggers
`send_log_data` unconditionally — exactly one request-log emission per call
— and the emitted messages do not depend on the request-log configuration
at all (the `enabled` flag is never consulted). -/
theorem send_request_data_always_emits_log (c : ApitallyClient) (k : Nat)
    (resp : ResponseMeta) (lu qu : Nat) :
    ((send_request_data c k resp lu qu).all
      (fun out => out.2.2.countP Emission.isLog == 1) = true) ∧
    (∀ cfg, (send_request_data { c with request_log_config := cfg } k resp lu qu).map
        (fun out => (out.1, out.2.2)) =
      (send_request_data c k resp lu qu).map (fun out => (out.1, out.2.2))) := by
  constructor
  · cases h : stashGet c.request_stash k with
    | none => simp [send_request_data, h]
    | some rm =>
      rw [send_request_data_eq_of_stashed c k rm resp lu qu h]
      simp [send_log_data, List.countP_cons, Emission.isLog]
  · intro cfg
    cases h : stashGet c.request_stash k with
    | none => simp [send_request_data, h]
    | some rm =>
      rw [send_request_data_eq_of_stashed c k rm resp lu qu h,
        send_request_data_eq_of_stashed { c with request_log_config := cfg } k rm resp lu qu h]
      simp [send_log_data]

/-- C3: `send_request_data` succeeds exactly when a record is stashed under
the key — after stashing under `k` the call always returns `some` (the
failure branch is unreachable), and with no record under `k` the
`.get(..).unwrap()` lookup panics (`none`), an unrecoverable failure of that
request's instrumentation path. -/
theorem send_request_data_succeeds_iff_stashed (c : ApitallyClient) (k : Nat)
    (resp : ResponseMeta) (lu qu : Nat) :
    ((send_request_data c k resp lu qu).isSome ↔
      (stashGet c.request_stash k).isSome) ∧
    (∀ rm, (send_request_data (stash_request_data c k rm).2 k resp lu qu).isSome) := by
  refine ⟨send_request_data_isSome_iff c k resp lu qu, fun rm => ?_⟩
  rw [send_request_data_isSome_iff]
  simp [stash_request_data, stashGet_stashInsert_self]

/-- C3 witness: on the sample client, key 1 is stashed and the call
succeeds; key 2 is not stashed and the call fails fatally. -/
theorem send_request_data_succeeds_iff_stashed_witness :
    (send_request_data clientW 1 respW 5 6).isSome = true ∧
    send_request_data clientW 2 respW 5 6 = none := by
  constructor
  · exact (send_request_data_succeeds_iff_stashed clientW 1 respW 5 6).1.mpr (by decide)
  · exact Option.not_isSome_iff_eq_none.mp (fun hs =>
      (by decide : ¬ (stashGet clientW.request_stash 2).isSome = true)
        ((send_request_data_succeeds_iff_stashed clientW 2 respW 5 6).1.mp hs))

/-- C4: whenever the content-length extraction does not panic, the
middleware returns the wrapped handler's outcome unchanged: on success the
very same `Response` (status, headers, body), and on failure the handler's
error, unmodified. -/
theorem middleware_returns_handler_outcome {ε : Type} (client : ApitallyClient)
    (inner : Request → Except ε Response) (request : Request) (rk lu qu : Nat)
    (h : (extract_content_length request.content_length_header).isSome) :
    (ApitallyMiddleware.call client inner request rk lu qu).map
      (fun out => out.1) = some (inner request) := by
  obtain ⟨cl, hcl⟩ := Option.isSome_iff_exists.mp h
  exact call_fst_eq client inner request rk lu qu cl hcl

/-- C4 witness: on the sample request and handler, the middleware returns
the handler's response. -/
theorem middleware_returns_handler_outcome_witness :
    (ApitallyMiddleware.call clientW innerW requestW 2 3 4).map
      (fun out => out.1) = some (innerW requestW) :=
  middleware_returns_handler_outcome clientW innerW requestW 2 3 4 rfl

/-- C5: for a record stashed under `k`, the call emits exactly one
usage-bundle message; it is tagged with message identifier `k` and contains
exactly one captured-request entry whose method and path come from the
stashed record, whose status code comes from the response record, whose
request count is 1, whose request-size sum is the stashed content length
and whose response-size sum is the response size; its validation-error,
server-error and consumer lists are empty. The middleware takes the
response size from the exact body-size hint, 0 when it is not known. -/
theorem usage_bundle_message_shape (c : ApitallyClient) (k : Nat)
    (rm : RequestMeta) (resp : ResponseMeta) (lu qu : Nat)
    (h : stashGet c.request_stash k = some rm) :
    (∃ msg, (send_request_data c k resp lu qu).map (fun out => syncMsgs out.2.2) =
        some [msg] ∧
      msg.message_uuid = k ∧
      (∃ cr, msg.requests = [cr] ∧
        cr.method = rm.method ∧ cr.path = rm.matched_path ∧
        cr.status_code = resp.status ∧ cr.request_count = 1 ∧
        cr.request_size_sum = rm.content_length ∧
        cr.response_size_sum = resp.size) ∧
      msg.validation_errors = [] ∧ msg.server_errors = [] ∧ msg.consumers = []) ∧
    (∀ r : Response, (ResponseMeta.ofResponse r).size = r.body_size_hint.getD 0) := by
  refine ⟨⟨{ time_offset := 0
             instance_uuid := c.instance_id
             message_uuid := k
             requests :=
               [{ consumer := none
                  method := rm.method
                  path := rm.matched_path
                  status_code := resp.status
                  request_count := 1
                  request_size_sum := rm.content_length
                  response_size_sum := resp.size
                  response_times := [("0", 1)]
                  request_sizes := [("0", 1)]
                  response_sizes := [("0", 1)] }]
             validation_errors := []
             server_errors := []
             consumers := [] },
    ?_, rfl, ⟨_, rfl, rfl, rfl, rfl, rfl, rfl, rfl⟩, rfl, rfl, rfl⟩, fun r => rfl⟩
  rw [send_request_data_eq_of_stashed c k rm resp lu qu h]
  simp [send_log_data, syncMsgs]

/-- C5 witness: the shape holds on the sample client, whose stash binds
key 1 to the sample record. -/
theorem usage_bundle_message_shape_witness :
    (∃ msg, (send_request_data clientW 1 respW 5 6).map (fun out => syncMsgs out.2.2) =
        some [msg] ∧
      msg.message_uuid = 1 ∧
      (∃ cr, msg.requests = [cr] ∧
        cr.method = metaW.method ∧ cr.path = metaW.matched_path ∧
        cr.status_code = respW.status ∧ cr.request_count = 1 ∧
        cr.request_size_sum = metaW.content_length ∧
        cr.response_size_sum = respW.size) ∧
      msg.validation_errors = [] ∧ msg.server_errors = [] ∧ msg.consumers = []) ∧
    (∀ r : Response, (ResponseMeta.ofResponse r).size = r.body_size_hint.getD 0) :=
  usage_bundle_message_shape clientW 1 metaW respW 5 6 rfl

/-- C6: client construction derives the base URL as
`https://hub.apitally.io/v2/<client_id>/<environment>`, stores the supplied
fresh instance identity, and launches exactly one startup emission carrying
the instance identity, the fresh message identifier, an empty path list, an
empty version map and the client-name tag `"rs:axum"`; in particular id
`"abc"` with environment `"prod"` gives `https://hub.apitally.io/v2/abc/prod`. -/
theorem client_new_startup (cid env : String) (iid mid : Nat) :
    (ApitallyClient.new cid env iid mid).1.base_url =
      "https://hub.apitally.io/v2/" ++ cid ++ "/" ++ env ∧
    (ApitallyClient.new cid env iid mid).1.instance_id = iid ∧
    (ApitallyClient.new cid env iid mid).2 =
      [Emission.startup
        ("https://hub.apitally.io/v2/" ++ cid ++ "/" ++ env ++ "/" ++ URL_STARTUP_SUFFIX)
        { instance_uuid := iid
          message_uuid := mid
          paths := []
          versions := []
          client := "rs:axum" }] ∧
    (ApitallyClient.new "abc" "prod" iid mid).1.base_url =
      "https://hub.apitally.io/v2/abc/prod" := by
  exact ⟨rfl, rfl, rfl, rfl⟩

/-- C7: the stashed path is the matched route pattern when the routing
layer exposes one, and the literal request path otherwise; the adapter does
not fail on a request with no matched route (whenever content-length
extraction succeeds, the call completes for every request). -/
theorem route_extraction_fallback {ε : Type} (client : ApitallyClient)
    (inner : Request → Except ε Response) (req : Request) (rk lu qu : Nat) :
    (∀ mp, req.matched_path_ext = some mp → extract_path req = mp) ∧
    (req.matched_path_ext = none → extract_path req = req.uri_path) ∧
    (∀ cl, extract_content_length req.content_length_header = some cl →
      (ApitallyMiddleware.call client inner req rk lu qu).isSome) := by
  refine ⟨fun mp hmp => ?_, fun hnone => ?_,
    fun cl hcl => call_isSome_of_extract client inner req rk lu qu cl hcl⟩
  · simp [extract_path, hmp]
  · simp [extract_path, hnone]

/-- C7 witness: with a matched route the pattern is used; with no matched
route the literal path is used and the middleware call still completes. -/
theorem route_extraction_fallback_witness :
    extract_path requestW = "/items/:id" ∧
    extract_path requestNoRouteW = "/users/42" ∧
    (ApitallyMiddleware.call clientW innerW requestNoRouteW 7 8 9).isSome = true := by
  have h1 := route_extraction_fallback clientW innerW requestW 7 8 9
  have h2 := route_extraction_fallback clientW innerW requestNoRouteW 7 8 9
  exact ⟨h1.1 "/items/:id" rfl, h2.2.1 rfl, h2.2.2 42 (by decide)⟩

/-- C8: `send_request_data` reads the stashed record without removing it:
whenever the call completes, the stash it hands back is exactly the stash it
was given, and in particular the record looked up under the key is still
reachable there afterwards. -/
theorem send_request_data_preserves_stash (c : ApitallyClient) (k : Nat)
    (resp : ResponseMeta) (lu qu : Nat) :
    ((send_request_data c k resp lu qu).all
      (fun out => decide (out.2.1.request_stash = c.request_stash)) = true) ∧
    ((send_request_data c k resp lu qu).all
      (fun out =>
        decide (stashGet out.2.1.request_stash k = stashGet c.request_stash k)) = true) := by
  cases h : stashGet c.request_stash k with
  | none => simp [send_request_data, h]
  | some rm =>
    rw [send_request_data_eq_of_stashed c k rm resp lu qu h]
    simp [h]

/-- C9: the emitted statistics are constant placeholders: every usage-bundle
message has `time_offset = 0` and each of its captured requests carries the
singleton histogram `[("0", 1)]` for response times, request sizes and
response sizes; every request-log message has request timestamp `0.0`,
response time `100.0`, empty header lists and empty bodies — all regardless
of the actual request and response. -/
theorem placeholder_statistics (c : ApitallyClient) (k : Nat)
    (rm : RequestMeta) (resp : ResponseMeta) (lu qu : Nat) :
    ((send_request_data c k resp lu qu).all (fun out =>
        (syncMsgs out.2.2).all (fun msg =>
          decide (msg.time_offset = 0) &&
          msg.requests.all (fun cr =>
            decide (cr.response_times = [("0", 1)] ∧
              cr.request_sizes = [("0", 1)] ∧
              cr.response_sizes = [("0", 1)])))) = true) ∧
    ((logMsgs (send_log_data c rm resp lu qu).2).all (fun m =>
        decide (m.request.timestamp = 0 ∧ m.response.response_time = 100 ∧
          m.request.headers = [] ∧ m.response.headers = [] ∧
          m.request.body = "" ∧ m.response.body = "")) = true) := by
  constructor
  · cases h : stashGet c.request_stash k with
    | none => simp [send_request_data, h]
    | some rm2 =>
      rw [send_request_data_eq_of_stashed c k rm2 resp lu qu h]
      simp [send_log_data, syncMsgs]
  · simp [send_log_data, logMsgs]

/-- C10: the `Result`-typed client operations never return the `Err`
variant: `stash_request_data`, `send_startup_data` and `send_log_data`
always return `Ok(())`; every terminating `send_request_data` call returns
`Ok(())`, and it terminates exactly when its lookup precondition holds. -/
theorem client_operations_never_err (c : ApitallyClient) (k : Nat)
    (rm : RequestMeta) (resp : ResponseMeta) (mid lu qu : Nat) :
    (stash_request_data c k rm).1 = Except.ok () ∧
    (send_startup_data c mid).1 = Except.ok () ∧
    (send_log_data c rm resp lu qu).1 = Except.ok () ∧
    ((send_request_data c k resp lu qu).all
      (fun out => decide (out.1 = Except.ok ())) = true) ∧
    ((send_request_data c k resp lu qu).isSome =
      (stashGet c.request_stash k).isSome) := by
  refine ⟨rfl, rfl, rfl, ?_, ?_⟩
  · cases h : stashGet c.request_stash k with
    | none => simp [send_request_data, h]
    | some rm2 =>
      rw [send_request_data_eq_of_stashed c k rm2 resp lu qu h]
      simp
  · cases h : stashGet c.request_stash k with
    | none => simp [send_request_data, h]
    | some rm2 =>
      rw [send_request_data_eq_of_stashed c k rm2 resp lu qu h]
      simp [h]

end Apitally
